import Mathlib

/-!
Verification of the BudgetApp budget-computation engine.

The definitions below are a shallow embedding of the calculation code in
`frontend/js/income-statement.js` (per-branch assumption editor),
`frontend/js/income-statement-budget.js` (multi-branch monthly budget view)
and `frontend/js/daily-budget.js` (daily-budget summary).  JavaScript
numbers are modelled as exact rationals (`ℚ`); absent dictionary entries
are modelled as `Option` values that default to `0` via `Option.getD`,
mirroring the `x || 0` / `?.` defaulting used throughout the source.
-/

set_option maxHeartbeats 1600000

/-- Line-item codes, exactly the `LINE_ITEMS_CONFIG` codes of the source. -/
inductive Code where
  | REV_IP | REV_OP | REV_ER | REV_SUB
  | DIS_REJECTION_MOH | DIS_REJECTION_INS | DIS_REJECTION
  | DIS_VOLUME | DIS_EARLY_PAY | DIS_SETTLEMENT
  | REV_NET
  | DC_CONSUMABLES | DC_MEDICINES | DC_DOCTORS_FEE | DC_EMPLOYEE
  | DC_GOVT_FEES | DC_INSURANCE | DC_KITCHEN | DC_MAINTENANCE | DC_OTHER
  | DC_REFERRAL | DC_RENTAL | DC_TRAINING | DC_TRAVEL | DC_UTILITIES
  | TOTAL_DC | GROSS_PROFIT
  | GA_GOVT_FEE | GA_AUDIT | GA_COMMUNICATION | GA_ECL | GA_OTHER
  | GA_POSTAGE | GA_PROFESSIONAL | GA_SECURITY | GA_TRAINING | GA_EMPLOYEE
  | GA_MARKETING | GA_HO_CHARGES
  | TOTAL_GA | OTHER_INCOME | EBITDA
  | FINANCE_COST | DEPRECIATION | ZAKAT | NET_PROFIT | OCI | TOTAL_COMP_INCOME
deriving DecidableEq, Repr

/-- Revenue-type allocation codes (`REVENUE_TYPE_CONFIG` in the source). -/
inductive RevType where
  | INSURANCE | CASH | MOH | OTHER_CREDIT
deriving DecidableEq, Repr

/-- One branch's revenue figures per care type; `none` models an absent
entry, which every call site defaults to `0`. -/
structure Revenue where
  ip : Option ℚ
  op : Option ℚ
  er : Option ℚ
deriving DecidableEq, Repr

def Revenue.ipVal (r : Revenue) : ℚ := r.ip.getD 0

def Revenue.opVal (r : Revenue) : ℚ := r.op.getD 0

def Revenue.erVal (r : Revenue) : ℚ := r.er.getD 0

/-- Maps `assumptionsData[branchId][code]?.assumption_value`: per line-item code,
an optional percentage. -/
abbrev Assumptions := Code → Option ℚ

/-- Maps `revenueTypeAssumptions[branchId][revTypeCode]`: per revenue-type code,
an optional allocation percentage. -/
abbrev RevAlloc := RevType → Option ℚ

/-- Reads `assumptionsData[branchId]?.[code]?.assumption_value || 0`. -/
def pctOf (asm : Assumptions) (c : Code) : ℚ := (asm c).getD 0

/-- Reads `revenueTypeAssumptions[branchId]?.[code] || 0`. -/
def allocOf (rt : RevAlloc) (t : RevType) : ℚ := (rt t).getD 0

/-- Source list `directCostCodes`: the 14 direct-cost line items. -/
def directCostCodes : List Code :=
  [.DC_CONSUMABLES, .DC_MEDICINES, .DC_DOCTORS_FEE, .DC_EMPLOYEE,
   .DC_GOVT_FEES, .DC_INSURANCE, .DC_KITCHEN, .DC_MAINTENANCE, .DC_OTHER,
   .DC_REFERRAL, .DC_RENTAL, .DC_TRAINING, .DC_TRAVEL, .DC_UTILITIES]

/-- Source list `gaCodes`: the 12 G&A line items. -/
def gaCodes : List Code :=
  [.GA_GOVT_FEE, .GA_AUDIT, .GA_COMMUNICATION, .GA_ECL, .GA_OTHER,
   .GA_POSTAGE, .GA_PROFESSIONAL, .GA_SECURITY, .GA_TRAINING, .GA_EMPLOYEE,
   .GA_MARKETING, .GA_HO_CHARGES]

/-- Source list `BRANCH_IDS`: the six branch ids. -/
def BRANCH_IDS : List ℕ := [1, 2, 3, 4, 5, 6]

namespace IS

/-! Embedding of `calculateAllValues` in `income-statement.js` (lines
884-1010), applied to one branch: annual revenue figures, the branch's
assumption set and its revenue-type allocations. -/

def subRevenue (r : Revenue) : ℚ := r.ipVal + r.opVal + r.erVal

def rejectionMohValue (r : Revenue) (asm : Assumptions) (rt : RevAlloc) : ℚ :=
  subRevenue r * (pctOf asm .DIS_REJECTION_MOH / 100) * (allocOf rt .MOH / 100)

def rejectionInsValue (r : Revenue) (asm : Assumptions) (rt : RevAlloc) : ℚ :=
  subRevenue r * (pctOf asm .DIS_REJECTION_INS / 100) * (allocOf rt .INSURANCE / 100)

def totalRejection (r : Revenue) (asm : Assumptions) (rt : RevAlloc) : ℚ :=
  rejectionMohValue r asm rt + rejectionInsValue r asm rt

def volumeValue (r : Revenue) (asm : Assumptions) : ℚ :=
  subRevenue r * (pctOf asm .DIS_VOLUME / 100)

def earlyPayValue (r : Revenue) (asm : Assumptions) : ℚ :=
  subRevenue r * (pctOf asm .DIS_EARLY_PAY / 100)

def totalDiscounts (r : Revenue) (asm : Assumptions) (rt : RevAlloc) : ℚ :=
  totalRejection r asm rt + volumeValue r asm + earlyPayValue r asm

def netRevenue (r : Revenue) (asm : Assumptions) (rt : RevAlloc) : ℚ :=
  subRevenue r - totalDiscounts r asm rt

/-- Value of one cost/expense code: `netRevenue * (pct / 100)`. -/
def expenseValue (r : Revenue) (asm : Assumptions) (rt : RevAlloc) (c : Code) : ℚ :=
  netRevenue r asm rt * (pctOf asm c / 100)

def totalDirectCosts (r : Revenue) (asm : Assumptions) (rt : RevAlloc) : ℚ :=
  (directCostCodes.map (expenseValue r asm rt)).sum

def grossProfit (r : Revenue) (asm : Assumptions) (rt : RevAlloc) : ℚ :=
  netRevenue r asm rt - totalDirectCosts r asm rt

def totalGAExpenses (r : Revenue) (asm : Assumptions) (rt : RevAlloc) : ℚ :=
  (gaCodes.map (expenseValue r asm rt)).sum

def otherIncome (r : Revenue) (asm : Assumptions) (rt : RevAlloc) : ℚ :=
  expenseValue r asm rt .OTHER_INCOME

def ebitda (r : Revenue) (asm : Assumptions) (rt : RevAlloc) : ℚ :=
  grossProfit r asm rt - totalGAExpenses r asm rt + otherIncome r asm rt

def netProfit (r : Revenue) (asm : Assumptions) (rt : RevAlloc) : ℚ :=
  ebitda r asm rt - expenseValue r asm rt .FINANCE_COST
    - expenseValue r asm rt .DEPRECIATION - expenseValue r asm rt .ZAKAT

/-- Function `calculateAllValues` of `income-statement.js` for one branch: the
dictionary `calculatedData[branchId]`.  The three raw revenue codes are
never written by this function, hence `none`. -/
def calculateAllValues (r : Revenue) (asm : Assumptions) (rt : RevAlloc) :
    Code → Option ℚ
  | .REV_IP => none
  | .REV_OP => none
  | .REV_ER => none
  | .REV_SUB => some (subRevenue r)
  | .DIS_REJECTION_MOH => some (rejectionMohValue r asm rt)
  | .DIS_REJECTION_INS => some (rejectionInsValue r asm rt)
  | .DIS_REJECTION => some (totalRejection r asm rt)
  | .DIS_VOLUME => some (volumeValue r asm)
  | .DIS_EARLY_PAY => some (earlyPayValue r asm)
  | .DIS_SETTLEMENT => some (totalDiscounts r asm rt)
  | .REV_NET => some (netRevenue r asm rt)
  | .TOTAL_DC => some (totalDirectCosts r asm rt)
  | .GROSS_PROFIT => some (grossProfit r asm rt)
  | .TOTAL_GA => some (totalGAExpenses r asm rt)
  | .OTHER_INCOME => some (otherIncome r asm rt)
  | .EBITDA => some (ebitda r asm rt)
  | .NET_PROFIT => some (netProfit r asm rt)
  | .OCI => some (expenseValue r asm rt .OCI)
  | .TOTAL_COMP_INCOME => some (netProfit r asm rt + expenseValue r asm rt .OCI)
  | c => some (expenseValue r asm rt c)

/-- The displayed value of a code: the stored entry, defaulting to 0
(`calculatedData[branchId]?.[item.code] || 0`). -/
def valueOf (r : Revenue) (asm : Assumptions) (rt : RevAlloc) (c : Code) : ℚ :=
  (calculateAllValues r asm rt c).getD 0

end IS

namespace ISB

/-! Embedding of `calculateMonthValues` in `income-statement-budget.js`
(lines 435-562): the same cascade, applied to one branch and one month's
revenue, and of `calculateAllBranchValues` (lines 400-429), which runs it
for the 12 months and sums fiscal totals. -/

def subRevenue (r : Revenue) : ℚ := r.ipVal + r.opVal + r.erVal

def rejectionMohValue (r : Revenue) (asm : Assumptions) (rt : RevAlloc) : ℚ :=
  subRevenue r * (pctOf asm .DIS_REJECTION_MOH / 100) * (allocOf rt .MOH / 100)

def rejectionInsValue (r : Revenue) (asm : Assumptions) (rt : RevAlloc) : ℚ :=
  subRevenue r * (pctOf asm .DIS_REJECTION_INS / 100) * (allocOf rt .INSURANCE / 100)

def totalRejection (r : Revenue) (asm : Assumptions) (rt : RevAlloc) : ℚ :=
  rejectionMohValue r asm rt + rejectionInsValue r asm rt

def volumeValue (r : Revenue) (asm : Assumptions) : ℚ :=
  subRevenue r * (pctOf asm .DIS_VOLUME / 100)

def earlyPayValue (r : Revenue) (asm : Assumptions) : ℚ :=
  subRevenue r * (pctOf asm .DIS_EARLY_PAY / 100)

def totalDiscounts (r : Revenue) (asm : Assumptions) (rt : RevAlloc) : ℚ :=
  totalRejection r asm rt + volumeValue r asm + earlyPayValue r asm

def netRevenue (r : Revenue) (asm : Assumptions) (rt : RevAlloc) : ℚ :=
  subRevenue r - totalDiscounts r asm rt

def expenseValue (r : Revenue) (asm : Assumptions) (rt : RevAlloc) (c : Code) : ℚ :=
  netRevenue r asm rt * (pctOf asm c / 100)

def totalDirectCosts (r : Revenue) (asm : Assumptions) (rt : RevAlloc) : ℚ :=
  (directCostCodes.map (expenseValue r asm rt)).sum

def grossProfit (r : Revenue) (asm : Assumptions) (rt : RevAlloc) : ℚ :=
  netRevenue r asm rt - totalDirectCosts r asm rt

def totalGAExpenses (r : Revenue) (asm : Assumptions) (rt : RevAlloc) : ℚ :=
  (gaCodes.map (expenseValue r asm rt)).sum

def otherIncome (r : Revenue) (asm : Assumptions) (rt : RevAlloc) : ℚ :=
  expenseValue r asm rt .OTHER_INCOME

def ebitda (r : Revenue) (asm : Assumptions) (rt : RevAlloc) : ℚ :=
  grossProfit r asm rt - totalGAExpenses r asm rt + otherIncome r asm rt

def netProfit (r : Revenue) (asm : Assumptions) (rt : RevAlloc) : ℚ :=
  ebitda r asm rt - expenseValue r asm rt .FINANCE_COST
    - expenseValue r asm rt .DEPRECIATION - expenseValue r asm rt .ZAKAT

/-- Function `calculateMonthValues` of `income-statement-budget.js` for one branch
and one month: the values stored under `month_<m>`.  Unlike the editor's
`calculateAllValues`, this function also writes the three raw revenue
codes. -/
def calculateMonthValues (r : Revenue) (asm : Assumptions) (rt : RevAlloc) :
    Code → ℚ
  | .REV_IP => r.ipVal
  | .REV_OP => r.opVal
  | .REV_ER => r.erVal
  | .REV_SUB => subRevenue r
  | .DIS_REJECTION_MOH => rejectionMohValue r asm rt
  | .DIS_REJECTION_INS => rejectionInsValue r asm rt
  | .DIS_REJECTION => totalRejection r asm rt
  | .DIS_VOLUME => volumeValue r asm
  | .DIS_EARLY_PAY => earlyPayValue r asm
  | .DIS_SETTLEMENT => totalDiscounts r asm rt
  | .REV_NET => netRevenue r asm rt
  | .TOTAL_DC => totalDirectCosts r asm rt
  | .GROSS_PROFIT => grossProfit r asm rt
  | .TOTAL_GA => totalGAExpenses r asm rt
  | .OTHER_INCOME => otherIncome r asm rt
  | .EBITDA => ebitda r asm rt
  | .NET_PROFIT => netProfit r asm rt
  | .OCI => expenseValue r asm rt .OCI
  | .TOTAL_COMP_INCOME => netProfit r asm rt + expenseValue r asm rt .OCI
  | c => expenseValue r asm rt c

/-- Reads `monthlyRevenueData[branchId]?.[month]` with default zero revenue:
a month with no revenue record defaults every care type to 0. -/
def monthRevenue (mData : Fin 12 → Option Revenue) (m : Fin 12) : Revenue :=
  (mData m).getD ⟨none, none, none⟩

/-- Result of `calculateAllBranchValues` for one branch: the filled
`calculatedData[branchId]` dictionary. -/
structure BranchCalc where
  monthVal : Fin 12 → Code → ℚ
  fy_total : Code → ℚ

/-- Function `calculateAllBranchValues` of `income-statement-budget.js` for one
branch: run `calculateMonthValues` for each of the 12 months, then sum the
stored month values into `fy_total` per line item. -/
def calculateAllBranchValues (mData : Fin 12 → Option Revenue)
    (asm : Assumptions) (rt : RevAlloc) : BranchCalc :=
  let mv : Fin 12 → Code → ℚ :=
    fun m c => calculateMonthValues (monthRevenue mData m) asm rt c
  { monthVal := mv
    fy_total := fun c => ((List.finRange 12).map (fun m => mv m c)).sum }

/-- The branch selector of the budget view: the `branch-select` control
holds either the string `all` or one branch id. -/
inductive BranchSel where
  | all
  | one (id : ℕ)

/-- Function `getSelectedBranches` of `income-statement-budget.js` (lines 197-202). -/
def getSelectedBranches : BranchSel → List ℕ
  | .all => BRANCH_IDS
  | .one id => [id]

/-- One month cell of `createDataRow` (lines 663-671): sum over the
selected branches of `calculatedData[branchId]?.[item.code]?.[month_m] || 0`;
a branch with no calculated data contributes 0. -/
def aggMonthTotal (data : ℕ → Option BranchCalc) (sel : BranchSel)
    (c : Code) (m : Fin 12) : ℚ :=
  ((getSelectedBranches sel).map (fun b =>
    match data b with
    | some bc => bc.monthVal m c
    | none => 0)).sum

end ISB

namespace IS

/-- Accumulator of `calculateRevenueTypeTotals` in `income-statement.js`
(lines 539-548): running `(typeTotal, branchCount)` over `BRANCH_IDS`,
counting a branch only when its allocation value is strictly positive. -/
def revTypeFold (alloc : ℕ → RevAlloc) (t : RevType) : ℚ × ℕ :=
  BRANCH_IDS.foldl (fun acc b =>
    let val := allocOf (alloc b) t
    if 0 < val then (acc.1 + val, acc.2 + 1) else acc) ((0 : ℚ), (0 : ℕ))

/-- The per-revenue-type total displayed by `calculateRevenueTypeTotals`
(line 550): `branchCount > 0 ? typeTotal / branchCount : 0`. -/
def calculateRevenueTypeTotals (alloc : ℕ → RevAlloc) (t : RevType) : ℚ :=
  let p := revTypeFold alloc t
  if 0 < p.2 then p.1 / (p.2 : ℚ) else 0

end IS

namespace DB

/-! Embedding of the summary computation of `updateSummaryCards` in
`daily-budget.js` (lines 383-489). -/

/-- One aggregated daily-budget row as consumed by `updateSummaryCards`;
`none` fields model absent values, defaulted by `|| 0` / `|| 'Unknown'`. -/
structure DailyRow where
  stay_type : Option String
  cpe : Option ℚ
  alos : Option ℚ
  revenue : Option ℚ
  episodes : Option ℚ

def DailyRow.stayType (row : DailyRow) : String := row.stay_type.getD "Unknown"

def DailyRow.cpeVal (row : DailyRow) : ℚ := row.cpe.getD 0

def DailyRow.alosVal (row : DailyRow) : ℚ := row.alos.getD 0

def DailyRow.revenueVal (row : DailyRow) : ℚ := row.revenue.getD 0

def DailyRow.episodesVal (row : DailyRow) : ℚ := row.episodes.getD 0

/-- The per-stay-type accumulator `stayTypeMetrics[stayType]`. -/
structure Metrics where
  revenue : ℚ
  episodes : ℚ
  totalCPE : ℚ
  countCPE : ℕ
  totalALOS : ℚ
  countALOS : ℕ
  records : ℕ

def Metrics.init : Metrics := ⟨0, 0, 0, 0, 0, 0, 0⟩

/-- One loop step of the `dailyBudgetData.forEach` accumulation
(lines 401-433). -/
def updateMetrics (m : Metrics) (row : DailyRow) : Metrics :=
  { revenue := m.revenue + row.revenueVal
    episodes := m.episodes + row.episodesVal
    records := m.records + 1
    totalCPE := if 0 < row.cpeVal then m.totalCPE + row.cpeVal else m.totalCPE
    countCPE := if 0 < row.cpeVal then m.countCPE + 1 else m.countCPE
    totalALOS := if 0 < row.alosVal then m.totalALOS + row.alosVal else m.totalALOS
    countALOS := if 0 < row.alosVal then m.countALOS + 1 else m.countALOS }

/-- Final `stayTypeMetrics[st]` after the forEach loop: the fold over
exactly the rows whose stay type is `st`, in input order. -/
def metricsFor (rows : List DailyRow) (st : String) : Metrics :=
  (rows.filter (fun row => row.stayType = st)).foldl updateMetrics Metrics.init

/-- The average cost-per-episode cell of the metrics table (lines 455-464):
LTC and Non-LTC use the mean of tracked CPE values, every other stay type
uses revenue over episodes. -/
def avgCPE (rows : List DailyRow) (st : String) : ℚ :=
  let m := metricsFor rows st
  if st = "LTC" ∨ st = "Non-LTC" then
    if 0 < m.countCPE then m.totalCPE / (m.countCPE : ℚ) else 0
  else
    if 0 < m.episodes then m.revenue / m.episodes else 0

/-- Stay types using the averaged cost-per-episode rule, per the spec:
the long-stay categories LTC and Non-LTC. -/
def longStay (st : String) : Bool := st == "LTC" || st == "Non-LTC"

/-- Spec-side reading of the long-stay rule: the individual positive cpe
values of the records of stay type `st`, in input order. -/
def posCPEList (rows : List DailyRow) (st : String) : List ℚ :=
  ((rows.filter (fun row => row.stayType = st)).map DailyRow.cpeVal).filter
    (fun v => 0 < v)

/-- Spec-side total revenue of the records of stay type `st`. -/
def totalRevenueOf (rows : List DailyRow) (st : String) : ℚ :=
  ((rows.filter (fun row => row.stayType = st)).map DailyRow.revenueVal).sum

/-- Spec-side total episode count of the records of stay type `st`. -/
def totalEpisodesOf (rows : List DailyRow) (st : String) : ℚ :=
  ((rows.filter (fun row => row.stayType = st)).map DailyRow.episodesVal).sum

end DB

/-- The three raw revenue codes, which the assumption editor's
`calculateAllValues` never writes. -/
def Code.isRaw : Code → Bool
  | .REV_IP | .REV_OP | .REV_ER => true
  | _ => false

/-- A revenue record whose sub revenue is 1; used to express that every
computed line item scales linearly with sub revenue. -/
def unitRevenue : Revenue := ⟨some 1, some 0, some 0⟩

/-- The positive allocation values of one revenue type across the six
branches; spec-side reading of `calculateRevenueTypeTotals`. -/
def posAllocList (alloc : ℕ → RevAlloc) (t : RevType) : List ℚ :=
  (BRANCH_IDS.map (fun b => allocOf (alloc b) t)).filter (fun v => 0 < v)

/-- Spec-side revenue-type total: the unweighted arithmetic average of the
strictly positive allocation values, 0 when no branch has one. -/
def revTypeAvgSpec (alloc : ℕ → RevAlloc) (t : RevType) : ℚ :=
  let pos := posAllocList alloc t
  if 0 < pos.length then pos.sum / (pos.length : ℚ) else 0

/-- The §8 scenario revenue: IP 100000, OP 50000, ER 10000. -/
def exRevenue : Revenue := ⟨some 100000, some 50000, some 10000⟩

/-- The §8 scenario assumptions: rejection MOH 2%, rejection insurance 3%,
volume 1%, early pay 0.5%, one direct cost of 10%. -/
def exAsm : Assumptions := fun c =>
  match c with
  | .DIS_REJECTION_MOH => some 2
  | .DIS_REJECTION_INS => some 3
  | .DIS_VOLUME => some 1
  | .DIS_EARLY_PAY => some (1 / 2)
  | .DC_CONSUMABLES => some 10
  | _ => none

/-- The §8 scenario allocations: MOH 40%, insurance 50%. -/
def exAlloc : RevAlloc := fun t =>
  match t with
  | .MOH => some 40
  | .INSURANCE => some 50
  | _ => none

/-- An all-absent assumption set. -/
def zeroAsm : Assumptions := fun _ => none

/-- An all-absent monthly revenue series. -/
def zeroMonths : Fin 12 → Option Revenue := fun _ => none

/-- A monthly revenue series repeating the §8 revenue every month. -/
def exMonths : Fin 12 → Option Revenue := fun _ => some exRevenue

/-- Twelve times the §8 revenue: the annual figures matching `exMonths`. -/
def yearRevenue : Revenue := ⟨some 1200000, some 600000, some 120000⟩

/-- The §8 allocations with a different Cash allocation added. -/
def exAlloc2 : RevAlloc := fun t =>
  match t with
  | .MOH => some 40
  | .INSURANCE => some 50
  | .CASH => some 10
  | .OTHER_CREDIT => some 7

/-- A concrete per-branch calculation result with constant values. -/
def bcW : ISB.BranchCalc :=
  { monthVal := fun _ _ => 7, fy_total := fun _ => 84 }

/-- A concrete aggregator input: branch 1 has data, every other branch has
none. -/
def dataW : ℕ → Option ISB.BranchCalc := fun b =>
  if b = 1 then some bcW else none

/-- Concrete daily-budget rows: three LTC records (one with cpe 0) and two
outpatient records. -/
def exRows : List DB.DailyRow :=
  [⟨some "LTC", some 10, some 5, some 100, some 2⟩,
   ⟨some "LTC", some 20, none, some 200, some 3⟩,
   ⟨some "LTC", some 0, none, some 50, some 1⟩,
   ⟨some "OP", none, none, some 500, some 20⟩,
   ⟨some "OP", some 9, none, some 300, some 12⟩]

/-! ## Helper lemmas -/

theorem list_sum_map_add {α : Type} (l : List α) (f g : α → ℚ) :
    (l.map (fun x => f x + g x)).sum = (l.map f).sum + (l.map g).sum := by
  induction l with
  | nil => simp
  | cons a t ih => simp [ih]; ring

theorem list_sum_map_mul {α : Type} (l : List α) (a : ℚ) (f : α → ℚ) :
    (l.map (fun x => f x * a)).sum = (l.map f).sum * a := by
  induction l with
  | nil => simp
  | cons b t ih => simp [ih]; ring

theorem subRevenue_unit : ISB.subRevenue unitRevenue = 1 := by
  simp [ISB.subRevenue, unitRevenue, Revenue.ipVal, Revenue.opVal, Revenue.erVal]

theorem netRevenue_homog (r : Revenue) (asm : Assumptions) (rt : RevAlloc) :
    ISB.netRevenue r asm rt = ISB.netRevenue unitRevenue asm rt * ISB.subRevenue r := by
  simp only [ISB.netRevenue, ISB.totalDiscounts, ISB.totalRejection,
    ISB.rejectionMohValue, ISB.rejectionInsValue, ISB.volumeValue,
    ISB.earlyPayValue, subRevenue_unit]
  ring

theorem expenseValue_homog (r : Revenue) (asm : Assumptions) (rt : RevAlloc)
    (c : Code) :
    ISB.expenseValue r asm rt c
      = ISB.expenseValue unitRevenue asm rt c * ISB.subRevenue r := by
  simp only [ISB.expenseValue]
  rw [netRevenue_homog r asm rt]
  ring

theorem totalDirectCosts_homog (r : Revenue) (asm : Assumptions) (rt : RevAlloc) :
    ISB.totalDirectCosts r asm rt
      = ISB.totalDirectCosts unitRevenue asm rt * ISB.subRevenue r := by
  simp only [ISB.totalDirectCosts]
  have h : (directCostCodes.map (ISB.expenseValue r asm rt))
      = directCostCodes.map
          (fun c => ISB.expenseValue unitRevenue asm rt c * ISB.subRevenue r) := by
    apply List.map_congr_left
    intro c _
    exact expenseValue_homog r asm rt c
  rw [h, list_sum_map_mul]

theorem totalGAExpenses_homog (r : Revenue) (asm : Assumptions) (rt : RevAlloc) :
    ISB.totalGAExpenses r asm rt
      = ISB.totalGAExpenses unitRevenue asm rt * ISB.subRevenue r := by
  simp only [ISB.totalGAExpenses]
  have h : (gaCodes.map (ISB.expenseValue r asm rt))
      = gaCodes.map
          (fun c => ISB.expenseValue unitRevenue asm rt c * ISB.subRevenue r) := by
    apply List.map_congr_left
    intro c _
    exact expenseValue_homog r asm rt c
  rw [h, list_sum_map_mul]

theorem grossProfit_homog (r : Revenue) (asm : Assumptions) (rt : RevAlloc) :
    ISB.grossProfit r asm rt
      = ISB.grossProfit unitRevenue asm rt * ISB.subRevenue r := by
  simp only [ISB.grossProfit]
  rw [netRevenue_homog r asm rt, totalDirectCosts_homog r asm rt]
  ring

theorem ebitda_homog (r : Revenue) (asm : Assumptions) (rt : RevAlloc) :
    ISB.ebitda r asm rt = ISB.ebitda unitRevenue asm rt * ISB.subRevenue r := by
  simp only [ISB.ebitda, ISB.otherIncome]
  rw [grossProfit_homog r asm rt, totalGAExpenses_homog r asm rt,
    expenseValue_homog r asm rt]
  ring

theorem netProfit_homog (r : Revenue) (asm : Assumptions) (rt : RevAlloc) :
    ISB.netProfit r asm rt
      = ISB.netProfit unitRevenue asm rt * ISB.subRevenue r := by
  simp only [ISB.netProfit]
  rw [ebitda_homog r asm rt, expenseValue_homog r asm rt .FINANCE_COST,
    expenseValue_homog r asm rt .DEPRECIATION, expenseValue_homog r asm rt .ZAKAT]
  ring

/-- Every line item the cascade computes scales linearly with sub revenue:
its value is the value at sub revenue 1 times the actual sub revenue. -/
theorem monthValues_homog (r : Revenue) (asm : Assumptions) (rt : RevAlloc)
    (c : Code) (h : c.isRaw = false) :
    ISB.calculateMonthValues r asm rt c
      = ISB.calculateMonthValues unitRevenue asm rt c * ISB.subRevenue r := by
  cases c <;> simp only [ISB.calculateMonthValues] <;>
    first
    | exact absurd h (by decide)
    | (rw [subRevenue_unit]; ring)
    | (simp only [ISB.rejectionMohValue, ISB.rejectionInsValue,
        ISB.totalRejection, ISB.volumeValue, ISB.earlyPayValue,
        ISB.totalDiscounts, subRevenue_unit]; ring)
    | exact netRevenue_homog r asm rt
    | exact totalDirectCosts_homog r asm rt
    | exact grossProfit_homog r asm rt
    | exact totalGAExpenses_homog r asm rt
    | exact ebitda_homog r asm rt
    | exact netProfit_homog r asm rt
    | exact expenseValue_homog r asm rt _
    | (rw [netProfit_homog r asm rt, expenseValue_homog r asm rt .OCI]; ring)

/-- The editor's `calculateAllValues` and the budget view's
`calculateMonthValues` run the same cascade: on the codes the editor
computes, they agree exactly. -/
theorem cascade_agree (r : Revenue) (asm : Assumptions) (rt : RevAlloc)
    (c : Code) (h : c.isRaw = false) :
    IS.calculateAllValues r asm rt c = some (ISB.calculateMonthValues r asm rt c) := by
  cases c <;> first | exact absurd h (by decide) | rfl

theorem list_sum_map_mul_left {α : Type} (l : List α) (a : ℚ) (f : α → ℚ) :
    (l.map (fun x => a * f x)).sum = a * (l.map f).sum := by
  induction l with
  | nil => simp
  | cons b t ih => simp [ih]; ring

/-! ## Claims -/

/-- C2: in both presentations the rejection line items are the cross-term
step: `DIS_REJECTION_MOH` equals `REV_SUB` times the `DIS_REJECTION_MOH`
assumption over 100 times the `REV_TYPE_MOH` allocation over 100, and
`DIS_REJECTION_INS` likewise uses the `REV_TYPE_INSURANCE` allocation; with
sub revenue 160000, assumption 2 and allocation 40, `DIS_REJECTION_MOH`
is 1280. -/
theorem rejection_cross_term (r : Revenue) (asm : Assumptions) (rt : RevAlloc) :
    (IS.valueOf r asm rt .DIS_REJECTION_MOH
       = IS.valueOf r asm rt .REV_SUB
         * (pctOf asm .DIS_REJECTION_MOH / 100) * (allocOf rt .MOH / 100)
     ∧ IS.valueOf r asm rt .DIS_REJECTION_INS
       = IS.valueOf r asm rt .REV_SUB
         * (pctOf asm .DIS_REJECTION_INS / 100) * (allocOf rt .INSURANCE / 100))
  ∧ (ISB.calculateMonthValues r asm rt .DIS_REJECTION_MOH
       = ISB.calculateMonthValues r asm rt .REV_SUB
         * (pctOf asm .DIS_REJECTION_MOH / 100) * (allocOf rt .MOH / 100)
     ∧ ISB.calculateMonthValues r asm rt .DIS_REJECTION_INS
       = ISB.calculateMonthValues r asm rt .REV_SUB
         * (pctOf asm .DIS_REJECTION_INS / 100) * (allocOf rt .INSURANCE / 100))
  ∧ IS.valueOf exRevenue exAsm exAlloc .DIS_REJECTION_MOH = 1280 := by
  refine ⟨⟨rfl, rfl⟩, ⟨rfl, rfl⟩, ?_⟩
  norm_num [IS.valueOf, IS.calculateAllValues, IS.rejectionMohValue,
    IS.subRevenue, Revenue.ipVal, Revenue.opVal, Revenue.erVal, pctOf,
    allocOf, exRevenue, exAsm, exAlloc]

/-- C3: for every input, the computed `REV_NET` equals the computed
`REV_SUB` minus the computed `DIS_SETTLEMENT` exactly, with no rounding in
between, in both the assumption editor and the monthly budget view. -/
theorem net_revenue_exact (r : Revenue) (asm : Assumptions) (rt : RevAlloc) :
    IS.valueOf r asm rt .REV_NET
      = IS.valueOf r asm rt .REV_SUB - IS.valueOf r asm rt .DIS_SETTLEMENT
  ∧ ISB.calculateMonthValues r asm rt .REV_NET
      = ISB.calculateMonthValues r asm rt .REV_SUB
        - ISB.calculateMonthValues r asm rt .DIS_SETTLEMENT := by
  exact ⟨rfl, rfl⟩

/-- C4: for every input, the computed values satisfy
`EBITDA = GROSS_PROFIT - TOTAL_GA + OTHER_INCOME`,
`NET_PROFIT = EBITDA - FINANCE_COST - DEPRECIATION - ZAKAT` and
`TOTAL_COMP_INCOME = NET_PROFIT + OCI`, in both presentations. -/
theorem profit_identities (r : Revenue) (asm : Assumptions) (rt : RevAlloc) :
    (IS.valueOf r asm rt .EBITDA
       = IS.valueOf r asm rt .GROSS_PROFIT - IS.valueOf r asm rt .TOTAL_GA
         + IS.valueOf r asm rt .OTHER_INCOME
     ∧ IS.valueOf r asm rt .NET_PROFIT
       = IS.valueOf r asm rt .EBITDA - IS.valueOf r asm rt .FINANCE_COST
         - IS.valueOf r asm rt .DEPRECIATION - IS.valueOf r asm rt .ZAKAT
     ∧ IS.valueOf r asm rt .TOTAL_COMP_INCOME
       = IS.valueOf r asm rt .NET_PROFIT + IS.valueOf r asm rt .OCI)
  ∧ (ISB.calculateMonthValues r asm rt .EBITDA
       = ISB.calculateMonthValues r asm rt .GROSS_PROFIT
         - ISB.calculateMonthValues r asm rt .TOTAL_GA
         + ISB.calculateMonthValues r asm rt .OTHER_INCOME
     ∧ ISB.calculateMonthValues r asm rt .NET_PROFIT
       = ISB.calculateMonthValues r asm rt .EBITDA
         - ISB.calculateMonthValues r asm rt .FINANCE_COST
         - ISB.calculateMonthValues r asm rt .DEPRECIATION
         - ISB.calculateMonthValues r asm rt .ZAKAT
     ∧ ISB.calculateMonthValues r asm rt .TOTAL_COMP_INCOME
       = ISB.calculateMonthValues r asm rt .NET_PROFIT
         + ISB.calculateMonthValues r asm rt .OCI) := by
  exact ⟨⟨rfl, rfl, rfl⟩, rfl, rfl, rfl⟩

/-- C6: for every branch input and every line item, the fiscal-year total
computed by `calculateAllBranchValues` equals the arithmetic sum of that
item's full-precision values across the 12 monthly periods. -/
theorem fiscal_total_is_month_sum (mData : Fin 12 → Option Revenue)
    (asm : Assumptions) (rt : RevAlloc) (c : Code) :
    (ISB.calculateAllBranchValues mData asm rt).fy_total c
      = ((List.finRange 12).map (fun m =>
          ISB.calculateMonthValues (ISB.monthRevenue mData m) asm rt c)).sum := by
  rfl

/-- C5: per period and per line item the budget view's aggregation is the
sum across the requested branches: a single-branch subset yields that
branch's own values, selecting all yields the sum over every branch, and a
branch without data contributes 0 without the aggregation failing. -/
theorem aggregator_sums (data : ℕ → Option ISB.BranchCalc) (c : Code)
    (m : Fin 12) :
    (∀ b bc, data b = some bc →
        ISB.aggMonthTotal data (.one b) c m = bc.monthVal m c)
  ∧ ISB.aggMonthTotal data .all c m
      = (BRANCH_IDS.map (fun b =>
          (data b).elim 0 (fun bc => bc.monthVal m c))).sum
  ∧ (∀ b, data b = none → ISB.aggMonthTotal data (.one b) c m = 0) := by
  refine ⟨?_, ?_, ?_⟩
  · intro b bc h
    simp [ISB.aggMonthTotal, ISB.getSelectedBranches, h]
  · simp only [ISB.aggMonthTotal, ISB.getSelectedBranches]
    refine congrArg List.sum (List.map_congr_left ?_)
    intro b _
    cases hb : data b <;> simp [hb]
  · intro b h
    simp [ISB.aggMonthTotal, ISB.getSelectedBranches, h]

/-- Concrete aggregation instance: branch 1 has data and is reproduced
exactly; branch 2 has none and aggregates to 0. -/
theorem aggregator_sums_witness :
    (dataW 1 = some bcW
      ∧ ISB.aggMonthTotal dataW (.one 1) .REV_NET 0 = bcW.monthVal 0 .REV_NET)
  ∧ (dataW 2 = none ∧ ISB.aggMonthTotal dataW (.one 2) .REV_NET 0 = 0) :=
  ⟨⟨rfl, (aggregator_sums dataW .REV_NET 0).1 1 bcW rfl⟩,
   ⟨rfl, (aggregator_sums dataW .REV_NET 0).2.2 2 rfl⟩⟩

theorem revTypeFold_general (alloc : ℕ → RevAlloc) (t : RevType) (l : List ℕ)
    (s : ℚ) (n : ℕ) :
    l.foldl (fun acc b =>
        let val := allocOf (alloc b) t
        if 0 < val then (acc.1 + val, acc.2 + 1) else acc) (s, n)
      = (s + ((l.map (fun b => allocOf (alloc b) t)).filter
            (fun v => 0 < v)).sum,
         n + ((l.map (fun b => allocOf (alloc b) t)).filter
            (fun v => 0 < v)).length) := by
  induction l generalizing s n with
  | nil => simp
  | cons a tl ih =>
    simp only [List.foldl_cons]
    by_cases hp : 0 < allocOf (alloc a) t
    · simp [hp, ih, Prod.ext_iff]
      constructor
      · ring
      · omega
    · simp [hp, ih]

/-- C7: the displayed revenue-type allocation total per code is the
unweighted arithmetic average of that code's percentage over exactly the
branches whose value is strictly positive; zero or absent values are
excluded from numerator and denominator, and with no positive value the
total is 0. -/
theorem rev_type_totals_avg (alloc : ℕ → RevAlloc) (t : RevType) :
    IS.calculateRevenueTypeTotals alloc t = revTypeAvgSpec alloc t := by
  simp only [IS.calculateRevenueTypeTotals, IS.revTypeFold, revTypeAvgSpec,
    posAllocList, revTypeFold_general, zero_add]

theorem metrics_fold_revenue (l : List DB.DailyRow) (m : DB.Metrics) :
    (l.foldl DB.updateMetrics m).revenue
      = m.revenue + (l.map DB.DailyRow.revenueVal).sum := by
  induction l generalizing m with
  | nil => simp
  | cons row tl ih =>
    simp only [List.foldl_cons, List.map_cons, List.sum_cons, ih,
      DB.updateMetrics]
    ring

theorem metrics_fold_episodes (l : List DB.DailyRow) (m : DB.Metrics) :
    (l.foldl DB.updateMetrics m).episodes
      = m.episodes + (l.map DB.DailyRow.episodesVal).sum := by
  induction l generalizing m with
  | nil => simp
  | cons row tl ih =>
    simp only [List.foldl_cons, List.map_cons, List.sum_cons, ih,
      DB.updateMetrics]
    ring

theorem metrics_fold_totalCPE (l : List DB.DailyRow) (m : DB.Metrics) :
    (l.foldl DB.updateMetrics m).totalCPE
      = m.totalCPE + ((l.map DB.DailyRow.cpeVal).filter (fun v => 0 < v)).sum := by
  induction l generalizing m with
  | nil => simp
  | cons row tl ih =>
    simp only [List.foldl_cons, List.map_cons, List.filter_cons]
    by_cases hp : 0 < row.cpeVal
    · simp [hp, ih, DB.updateMetrics]
      ring
    · simp [hp, ih, DB.updateMetrics]

theorem metrics_fold_countCPE (l : List DB.DailyRow) (m : DB.Metrics) :
    (l.foldl DB.updateMetrics m).countCPE
      = m.countCPE
        + ((l.map DB.DailyRow.cpeVal).filter (fun v => 0 < v)).length := by
  induction l generalizing m with
  | nil => simp
  | cons row tl ih =>
    simp only [List.foldl_cons, List.map_cons, List.filter_cons]
    by_cases hp : 0 < row.cpeVal
    · simp [hp, ih, DB.updateMetrics]
      omega
    · simp [hp, ih, DB.updateMetrics]

/-- C8: in the daily-budget summary, long-stay categories (LTC and
Non-LTC) report the mean of their records' individual positive cpe values,
while every other stay type (including OP and ER) reports total revenue
divided by total episode count; the rules are keyed by stay type and never
interchanged. -/
theorem daily_avgcpe_rules (rows : List DB.DailyRow) (st : String) :
    (DB.longStay st = true →
       DB.avgCPE rows st
         = (DB.posCPEList rows st).sum / ((DB.posCPEList rows st).length : ℚ))
  ∧ (DB.longStay st = false → 0 < DB.totalEpisodesOf rows st →
       DB.avgCPE rows st
         = DB.totalRevenueOf rows st / DB.totalEpisodesOf rows st) := by
  have hcond : (st = "LTC" ∨ st = "Non-LTC") ↔ DB.longStay st = true := by
    simp [DB.longStay]
  constructor
  · intro h
    simp only [DB.avgCPE]
    rw [if_pos (hcond.mpr h)]
    have hcount : (DB.metricsFor rows st).countCPE
        = (DB.posCPEList rows st).length := by
      simp [DB.metricsFor, metrics_fold_countCPE, DB.posCPEList, DB.Metrics.init]
    have htotal : (DB.metricsFor rows st).totalCPE
        = (DB.posCPEList rows st).sum := by
      simp [DB.metricsFor, metrics_fold_totalCPE, DB.posCPEList, DB.Metrics.init]
    rw [hcount, htotal]
    by_cases hl : 0 < (DB.posCPEList rows st).length
    · rw [if_pos hl]
    · rw [if_neg hl]
      have hnil : DB.posCPEList rows st = [] := by
        cases hx : DB.posCPEList rows st with
        | nil => rfl
        | cons a b => rw [hx] at hl; simp at hl
      rw [hnil]
      simp
  · intro h hep
    simp only [DB.avgCPE]
    have hnot : ¬(st = "LTC" ∨ st = "Non-LTC") := by
      intro hx
      rw [hcond] at hx
      rw [h] at hx
      exact Bool.noConfusion hx
    rw [if_neg hnot]
    have hrev : (DB.metricsFor rows st).revenue = DB.totalRevenueOf rows st := by
      simp [DB.metricsFor, metrics_fold_revenue, DB.totalRevenueOf, DB.Metrics.init]
    have heps : (DB.metricsFor rows st).episodes
        = DB.totalEpisodesOf rows st := by
      simp [DB.metricsFor, metrics_fold_episodes, DB.totalEpisodesOf, DB.Metrics.init]
    rw [hrev, heps, if_pos hep]

/-- Concrete instance of the two cost-per-episode rules: for the sample
rows, LTC averages its positive cpe values and OP divides revenue by
episodes. -/
theorem daily_avgcpe_rules_witness :
    (DB.longStay "LTC" = true
      ∧ DB.avgCPE exRows "LTC"
          = (DB.posCPEList exRows "LTC").sum
            / ((DB.posCPEList exRows "LTC").length : ℚ)
      ∧ DB.avgCPE exRows "LTC" = 15)
  ∧ (DB.longStay "OP" = false ∧ 0 < DB.totalEpisodesOf exRows "OP"
      ∧ DB.avgCPE exRows "OP"
          = DB.totalRevenueOf exRows "OP" / DB.totalEpisodesOf exRows "OP"
      ∧ DB.avgCPE exRows "OP" = 25) := by
  have hne1 : ("OP" : String) ≠ "LTC" := by decide
  have hne2 : ("OP" : String) ≠ "Non-LTC" := by decide
  have hne3 : ("LTC" : String) ≠ "OP" := by decide
  refine ⟨⟨by decide, (daily_avgcpe_rules exRows "LTC").1 (by decide), ?_⟩,
    ⟨by decide, ?_, (daily_avgcpe_rules exRows "OP").2 (by decide) ?_, ?_⟩⟩
  · norm_num [DB.avgCPE, DB.metricsFor, DB.updateMetrics, DB.Metrics.init,
      exRows, DB.DailyRow.stayType, DB.DailyRow.cpeVal, DB.DailyRow.revenueVal,
      DB.DailyRow.episodesVal, List.filter, List.foldl, hne1]
  · norm_num [DB.totalEpisodesOf, exRows, DB.DailyRow.stayType,
      DB.DailyRow.episodesVal, List.filter, hne3]
  · norm_num [DB.totalEpisodesOf, exRows, DB.DailyRow.stayType,
      DB.DailyRow.episodesVal, List.filter, hne3]
  · norm_num [DB.avgCPE, DB.metricsFor, DB.updateMetrics, DB.Metrics.init,
      exRows, DB.DailyRow.stayType, DB.DailyRow.cpeVal, DB.DailyRow.revenueVal,
      DB.DailyRow.episodesVal, List.filter, List.foldl, hne1, hne2, hne3]

/-- C9: with all revenue figures 0 or absent and all assumption
percentages 0 or absent, every computed line-item value is 0, in both the
assumption editor and the monthly budget view. -/
theorem zero_inputs_all_zero (r : Revenue) (asm : Assumptions) (rt : RevAlloc)
    (hip : r.ip = none ∨ r.ip = some 0)
    (hop : r.op = none ∨ r.op = some 0)
    (her : r.er = none ∨ r.er = some 0)
    (hasm : ∀ c, asm c = none ∨ asm c = some 0) :
    (∀ c v, IS.calculateAllValues r asm rt c = some v → v = 0)
  ∧ (∀ c, ISB.calculateMonthValues r asm rt c = 0) := by
  have hips : r.ipVal = 0 := by
    rcases hip with h | h <;> simp [Revenue.ipVal, h]
  have hops : r.opVal = 0 := by
    rcases hop with h | h <;> simp [Revenue.opVal, h]
  have hers : r.erVal = 0 := by
    rcases her with h | h <;> simp [Revenue.erVal, h]
  have hsub : ISB.subRevenue r = 0 := by
    simp [ISB.subRevenue, hips, hops, hers]
  have hmonth : ∀ c, ISB.calculateMonthValues r asm rt c = 0 := by
    intro c
    by_cases hc : c.isRaw = false
    · rw [monthValues_homog r asm rt c hc, hsub, mul_zero]
    · cases c <;> first
        | exact hips
        | exact hops
        | exact hers
        | exact absurd rfl hc
  refine ⟨?_, hmonth⟩
  intro c v h
  by_cases hc : c.isRaw = false
  · rw [cascade_agree r asm rt c hc] at h
    have hv := Option.some.inj h
    rw [← hv]
    exact hmonth c
  · cases c <;> first
      | exact Option.noConfusion h
      | exact absurd rfl hc

/-- Concrete zero-input instance: absent or zero revenue with absent
assumptions yields zero net revenue and zero EBITDA. -/
theorem zero_inputs_all_zero_witness :
    ISB.calculateMonthValues ⟨none, some 0, none⟩ zeroAsm exAlloc .REV_NET = 0
  ∧ IS.ebitda ⟨none, some 0, none⟩ zeroAsm exAlloc = 0 :=
  ⟨(zero_inputs_all_zero ⟨none, some 0, none⟩ zeroAsm exAlloc
      (Or.inl rfl) (Or.inr rfl) (Or.inl rfl) (fun _ => Or.inl rfl)).2 .REV_NET,
   (zero_inputs_all_zero ⟨none, some 0, none⟩ zeroAsm exAlloc
      (Or.inl rfl) (Or.inr rfl) (Or.inl rfl) (fun _ => Or.inl rfl)).1 .EBITDA
     (IS.ebitda ⟨none, some 0, none⟩ zeroAsm exAlloc) rfl⟩

/-- C10: computed line-item values depend on only the MOH and Insurance
revenue-type allocations: two runs whose allocations agree on MOH and
Insurance but may differ on Cash and Other Credit produce identical values
for every line item, in both presentations. -/
theorem alloc_noninterference (r : Revenue) (asm : Assumptions)
    (rt rt2 : RevAlloc)
    (hM : rt .MOH = rt2 .MOH) (hI : rt .INSURANCE = rt2 .INSURANCE) :
    (∀ c, IS.calculateAllValues r asm rt c = IS.calculateAllValues r asm rt2 c)
  ∧ (∀ c, ISB.calculateMonthValues r asm rt c
      = ISB.calculateMonthValues r asm rt2 c) := by
  have hMa : allocOf rt .MOH = allocOf rt2 .MOH := by
    simp [allocOf, hM]
  have hIa : allocOf rt .INSURANCE = allocOf rt2 .INSURANCE := by
    simp [allocOf, hI]
  have hrejm : ISB.rejectionMohValue r asm rt
      = ISB.rejectionMohValue r asm rt2 := by
    simp only [ISB.rejectionMohValue, hMa]
  have hreji : ISB.rejectionInsValue r asm rt
      = ISB.rejectionInsValue r asm rt2 := by
    simp only [ISB.rejectionInsValue, hIa]
  have hrej : ISB.totalRejection r asm rt = ISB.totalRejection r asm rt2 := by
    simp only [ISB.totalRejection, hrejm, hreji]
  have hdisc : ISB.totalDiscounts r asm rt = ISB.totalDiscounts r asm rt2 := by
    simp only [ISB.totalDiscounts, hrej]
  have hnet : ISB.netRevenue r asm rt = ISB.netRevenue r asm rt2 := by
    simp only [ISB.netRevenue, hdisc]
  have hexp : ∀ c, ISB.expenseValue r asm rt c = ISB.expenseValue r asm rt2 c := by
    intro c
    simp only [ISB.expenseValue, hnet]
  have hdc : ISB.totalDirectCosts r asm rt = ISB.totalDirectCosts r asm rt2 := by
    simp only [ISB.totalDirectCosts]
    exact congrArg List.sum (List.map_congr_left fun c _ => hexp c)
  have hga : ISB.totalGAExpenses r asm rt = ISB.totalGAExpenses r asm rt2 := by
    simp only [ISB.totalGAExpenses]
    exact congrArg List.sum (List.map_congr_left fun c _ => hexp c)
  have hgp : ISB.grossProfit r asm rt = ISB.grossProfit r asm rt2 := by
    simp only [ISB.grossProfit, hnet, hdc]
  have heb : ISB.ebitda r asm rt = ISB.ebitda r asm rt2 := by
    simp only [ISB.ebitda, ISB.otherIncome, hgp, hga, hexp]
  have hnp : ISB.netProfit r asm rt = ISB.netProfit r asm rt2 := by
    simp only [ISB.netProfit, heb, hexp]
  have hmon : ∀ c, ISB.calculateMonthValues r asm rt c
      = ISB.calculateMonthValues r asm rt2 c := by
    intro c
    cases c <;>
      simp only [ISB.calculateMonthValues] <;>
      first
      | rfl
      | exact hrejm
      | exact hreji
      | exact hrej
      | exact hdisc
      | exact hnet
      | exact hdc
      | exact hgp
      | exact hga
      | exact heb
      | exact hnp
      | exact hexp _
      | (rw [hnp, hexp .OCI])
  refine ⟨?_, hmon⟩
  intro c
  by_cases hc : c.isRaw = false
  · rw [cascade_agree r asm rt c hc, cascade_agree r asm rt2 c hc, hmon c]
  · cases c <;> first | rfl | exact absurd rfl hc

/-- Concrete allocation-independence instance: adding Cash and Other
Credit allocations leaves the computed net revenue unchanged. -/
theorem alloc_noninterference_witness :
    exAlloc .MOH = exAlloc2 .MOH ∧ exAlloc .INSURANCE = exAlloc2 .INSURANCE
  ∧ ISB.calculateMonthValues exRevenue exAsm exAlloc .REV_NET
      = ISB.calculateMonthValues exRevenue exAsm exAlloc2 .REV_NET :=
  ⟨rfl, rfl,
   (alloc_noninterference exRevenue exAsm exAlloc exAlloc2 rfl rfl).2 .REV_NET⟩

/-- C1: for a fixed assumption set and revenue-type allocations, whenever
the annual revenue per care type equals the sum of the 12 monthly revenues
per care type, every line item computed by the assumption editor's
`calculateAllValues` equals the corresponding fiscal-year total of the
monthly budget view's `calculateMonthValues` summed over the 12 months. -/
theorem editor_budget_equiv (rA : Revenue) (mData : Fin 12 → Option Revenue)
    (asm : Assumptions) (rt : RevAlloc)
    (hip : rA.ipVal = ((List.finRange 12).map
        (fun m => (ISB.monthRevenue mData m).ipVal)).sum)
    (hop : rA.opVal = ((List.finRange 12).map
        (fun m => (ISB.monthRevenue mData m).opVal)).sum)
    (her : rA.erVal = ((List.finRange 12).map
        (fun m => (ISB.monthRevenue mData m).erVal)).sum) :
    ∀ c v, IS.calculateAllValues rA asm rt c = some v →
      (ISB.calculateAllBranchValues mData asm rt).fy_total c = v := by
  have hsub : ((List.finRange 12).map
      (fun m => ISB.subRevenue (ISB.monthRevenue mData m))).sum
      = ISB.subRevenue rA := by
    simp only [ISB.subRevenue]
    rw [list_sum_map_add (List.finRange 12)
        (fun m => (ISB.monthRevenue mData m).ipVal
          + (ISB.monthRevenue mData m).opVal)
        (fun m => (ISB.monthRevenue mData m).erVal),
      list_sum_map_add (List.finRange 12)
        (fun m => (ISB.monthRevenue mData m).ipVal)
        (fun m => (ISB.monthRevenue mData m).opVal),
      hip, hop, her]
  intro c v h
  by_cases hc : c.isRaw = false
  · rw [cascade_agree rA asm rt c hc] at h
    have hv := Option.some.inj h
    rw [← hv]
    show ((List.finRange 12).map (fun m =>
        ISB.calculateMonthValues (ISB.monthRevenue mData m) asm rt c)).sum
      = ISB.calculateMonthValues rA asm rt c
    have hmap : (List.finRange 12).map (fun m =>
        ISB.calculateMonthValues (ISB.monthRevenue mData m) asm rt c)
      = (List.finRange 12).map (fun m =>
          ISB.calculateMonthValues unitRevenue asm rt c
            * ISB.subRevenue (ISB.monthRevenue mData m)) :=
      List.map_congr_left fun m _ => monthValues_homog _ asm rt c hc
    rw [hmap, list_sum_map_mul_left, hsub, ← monthValues_homog rA asm rt c hc]
  · cases c <;> first
      | exact Option.noConfusion h
      | exact absurd rfl hc

/-- Concrete editor/budget agreement: the §8 revenue repeated over 12
months sums to the annual figures, and the fiscal net revenue total equals
the editor's annual net revenue 1847040. -/
theorem editor_budget_equiv_witness :
    (yearRevenue.ipVal = ((List.finRange 12).map
        (fun m => (ISB.monthRevenue exMonths m).ipVal)).sum)
  ∧ (yearRevenue.opVal = ((List.finRange 12).map
        (fun m => (ISB.monthRevenue exMonths m).opVal)).sum)
  ∧ (yearRevenue.erVal = ((List.finRange 12).map
        (fun m => (ISB.monthRevenue exMonths m).erVal)).sum)
  ∧ (ISB.calculateAllBranchValues exMonths exAsm exAlloc).fy_total .REV_NET
      = 1847040 := by
  have hip : yearRevenue.ipVal = ((List.finRange 12).map
      (fun m => (ISB.monthRevenue exMonths m).ipVal)).sum := by
    simp [ISB.monthRevenue, exMonths, yearRevenue, exRevenue, Revenue.ipVal,
      List.map_const', List.sum_replicate]
    norm_num
  have hop : yearRevenue.opVal = ((List.finRange 12).map
      (fun m => (ISB.monthRevenue exMonths m).opVal)).sum := by
    simp [ISB.monthRevenue, exMonths, yearRevenue, exRevenue, Revenue.opVal,
      List.map_const', List.sum_replicate]
    norm_num
  have her : yearRevenue.erVal = ((List.finRange 12).map
      (fun m => (ISB.monthRevenue exMonths m).erVal)).sum := by
    simp [ISB.monthRevenue, exMonths, yearRevenue, exRevenue, Revenue.erVal,
      List.map_const', List.sum_replicate]
    norm_num
  refine ⟨hip, hop, her,
    editor_budget_equiv yearRevenue exMonths exAsm exAlloc hip hop her
      .REV_NET 1847040 ?_⟩
  norm_num [IS.calculateAllValues, IS.netRevenue, IS.totalDiscounts,
    IS.totalRejection, IS.rejectionMohValue, IS.rejectionInsValue,
    IS.volumeValue, IS.earlyPayValue, IS.subRevenue, Revenue.ipVal,
    Revenue.opVal, Revenue.erVal, pctOf, allocOf, exAsm, exAlloc, yearRevenue]
